import Mathlib

/-!
Verification of the avidtools report data model, connector pipeline,
normalization step, and the PyPI publish workflow version check.

The data model (`Report` and its components) and the connector /
normalization logic live in the Python package (`avidtools/datamodels`,
`avidtools/connectors`); the publish workflow and its version-consistency
check are the GitHub Actions YAML and the accompanying shell test script.
Pure functions are embedded as Lean functions; the workflow job is embedded
as an explicit step list run by a small sequential executor mirroring
GitHub Actions semantics (steps run in order, `if:` conditions gate steps,
a failing step stops the job).
-/

namespace Avid

/-! ## Data model: enumerations (closed vocabularies) -/

/-- Modelled from the spec: artifact types form a small closed set
(`Dataset`, `Model`, `System`); the datamodels package under
`avidtools/datamodels` is not included in the sources. -/
inductive ArtifactTypeEnum
  | dataset
  | model
  | system
deriving DecidableEq

/-- Modelled from the spec: the AI risk domains (Security, Ethics,
Performance) used as taxonomy tags. -/
inductive RiskDomain
  | security
  | ethics
  | performance
deriving DecidableEq

/-- Modelled from the spec: the AI lifecycle stages used as taxonomy tags. -/
inductive LifecycleEnum
  | L01
  | L02
  | L03
  | L04
  | L05
  | L06
deriving DecidableEq

/-- Modelled from the spec: the closed CVSS severity categories used for
the CVSS-derived impact tag (`CVSSScores`). -/
inductive SeverityEnum
  | low
  | medium
  | high
  | critical
deriving DecidableEq

/-- Modelled from the spec: the taxonomy source tags — the closed set of
source taxonomies whose extensions may populate an impact section. -/
inductive TaxonomySource
  | avid
  | atlas
  | cve
  | odin
deriving DecidableEq

/-- All declared values of the artifact-type vocabulary. -/
def ARTIFACT_TYPE_VOCAB : List ArtifactTypeEnum :=
  [ArtifactTypeEnum.dataset, ArtifactTypeEnum.model, ArtifactTypeEnum.system]

/-- All declared values of the risk-domain vocabulary. -/
def RISK_DOMAIN_VOCAB : List RiskDomain :=
  [RiskDomain.security, RiskDomain.ethics, RiskDomain.performance]

/-- All declared values of the lifecycle vocabulary. -/
def LIFECYCLE_VOCAB : List LifecycleEnum :=
  [LifecycleEnum.L01, LifecycleEnum.L02, LifecycleEnum.L03,
   LifecycleEnum.L04, LifecycleEnum.L05, LifecycleEnum.L06]

/-- All declared values of the CVSS severity vocabulary. -/
def CVSS_SEVERITY_VOCAB : List SeverityEnum :=
  [SeverityEnum.low, SeverityEnum.medium, SeverityEnum.high, SeverityEnum.critical]

/-- All declared values of the taxonomy-source-tag vocabulary. -/
def TAXONOMY_SOURCE_VOCAB : List TaxonomySource :=
  [TaxonomySource.avid, TaxonomySource.atlas, TaxonomySource.cve, TaxonomySource.odin]

/-! ## Data model: components -/

/-- A language-tagged text value. -/
structure LangValue where
  lang : String
  value : String
deriving DecidableEq

/-- An affected artifact: a (type, name) pair. -/
structure Artifact where
  type : ArtifactTypeEnum
  name : String
deriving DecidableEq

/-- Developers, deployers and artifacts affected by a report. -/
structure Affects where
  developer : List String
  deployer : List String
  artifacts : List Artifact
deriving DecidableEq

/-- Problem classification plus free-text description. -/
structure Problemtype where
  classof : String
  type : Option String
  description : LangValue
deriving DecidableEq

/-- A named measurement result. -/
structure Metric where
  name : String
  detection_method : String
  results : String
deriving DecidableEq

/-- A label + URL pair. -/
structure Reference where
  label : String
  url : String
deriving DecidableEq

/-- The AVID taxonomy block of the impact section. -/
structure AvidTaxonomy where
  risk_domain : List RiskDomain
  lifecycle_view : List LifecycleEnum
  taxonomy_version : String
deriving DecidableEq

/-- Modelled from the spec: CVSS-derived scores attached by the CVE
connector (`CVSSScores` component added with the Mileva connector); the
severity tag is drawn from the closed CVSS severity vocabulary. -/
structure CvssScores where
  severity : SeverityEnum
deriving DecidableEq

/-- The impact section: AVID taxonomy tags, optional source-specific
extensions, and the taxonomy source tags naming the taxonomies that
populate this impact. -/
structure Impact where
  avid : AvidTaxonomy
  cvss : Option CvssScores
  sources : List TaxonomySource
deriving DecidableEq

/-- One documented instance of an AI failure. -/
structure Report where
  data_type : String
  metadata : Option String
  affects : Affects
  problemtype : Problemtype
  metrics : List Metric
  references : List Reference
  description : LangValue
  impact : Impact
  credit : Option String
  reported_date : String
deriving DecidableEq

/-! ## Connector utilities: subject labels and the recognizer pattern -/

/-- Modelled from the spec: the two subject labels used in generated
problem descriptions. -/
def SUBJECT_LABELS : List String := ["LLM", "AI system"]

/-- The default subject label used for artifact types other than
`model` and `system`. -/
def DEFAULT_SUBJECT : String := "AI system"

/-- Modelled from the spec: subject-label selection from artifact type
(`Model` maps to "LLM", `System` maps to "AI system", anything else to the
default); `connectors/utils.py` is not included in the sources. -/
def subjectLabel : ArtifactTypeEnum → String
  | ArtifactTypeEnum.model => "LLM"
  | ArtifactTypeEnum.system => "AI system"
  | ArtifactTypeEnum.dataset => DEFAULT_SUBJECT

/-- The fixed head of every generated problem description. -/
def PATTERN_HEAD : String := "Evaluation of the "

/-- Modelled from the spec: `INSPECT_MODEL_PREFIXES` in
`connectors/utils.py` lists the recognized description heads for both
subject labels. -/
def INSPECT_MODEL_PREFIXES : List String :=
  SUBJECT_LABELS.map (fun s => PATTERN_HEAD ++ s)

/-- Boolean string starts-with, computed on the underlying character
lists. -/
def strStartsWith (s p : String) : Bool := p.data.isPrefixOf s.data

/-- Boolean string ends-with, computed on the underlying character
lists. -/
def strEndsWith (s p : String) : Bool := p.data.isSuffixOf s.data

/-- Modelled from the spec: the recognizer (`PATTERN`) accepts a
description exactly when it starts with one of the recognized heads,
for either subject label. -/
def matchesPattern (s : String) : Bool :=
  INSPECT_MODEL_PREFIXES.any (fun p => strStartsWith s p)

/-- The description a connector writes for an evaluation of subject type
`t` on task `task`. -/
def initialProblemDescription (t : ArtifactTypeEnum) (task : String) : String :=
  PATTERN_HEAD ++ subjectLabel t ++ (" on " ++ task)

/-! ## Normalization -/

/-- Appending the fetched benchmark text to a description. -/
def appendBenchText (d bench : String) : String := d ++ " " ++ bench

/-- Modelled from the spec: the check that stops the fetched benchmark
text from being appended a second time to an already-enriched
description. -/
def alreadyEnriched (d bench : String) : Bool := strEndsWith d bench

/-- Modelled from the spec: `normalize_report_data` in
`connectors/inspect.py` (not included in the sources). `fetched` is the
result of the external benchmark lookup (`none` models a network error or
a benchmark that was not found). When the problem description matches the
recognizer pattern and the lookup succeeded, the fetched text is appended
once to both description fields; on lookup failure, or when the pattern
does not match, or when the text is already present, the report is
returned unchanged. The function is total: no exception reaches the
caller. -/
def normalize (fetched : Option String) (r : Report) : Report :=
  if matchesPattern r.problemtype.description.value then
    match fetched with
    | none => r
    | some bench =>
      if alreadyEnriched r.problemtype.description.value bench then r
      else
        { r with
          problemtype :=
            { r.problemtype with
              description :=
                { r.problemtype.description with
                  value := appendBenchText r.problemtype.description.value bench } }
          description :=
            { r.description with
              value := appendBenchText r.description.value bench } }
  else r

/-! ## Basic string lemmas for the recognizer -/

theorem strStartsWith_append (s t : String) : strStartsWith (s ++ t) s = true := by
  unfold strStartsWith
  rw [String.data_append, List.isPrefixOf_iff_prefix]
  exact List.prefix_append s.data t.data

theorem strEndsWith_append (s t : String) : strEndsWith (s ++ t) t = true := by
  unfold strEndsWith
  rw [String.data_append, List.isSuffixOf_iff_suffix]
  exact List.suffix_append s.data t.data

theorem strStartsWith_trans_append (s p t : String)
    (h : strStartsWith s p = true) :
    strStartsWith (s ++ t) p = true := by
  unfold strStartsWith at h ⊢
  rw [String.data_append, List.isPrefixOf_iff_prefix] at *
  exact h.trans (List.prefix_append s.data t.data)

theorem matchesPattern_append (d t : String)
    (h : matchesPattern d = true) :
    matchesPattern (d ++ t) = true := by
  unfold matchesPattern at h ⊢
  rw [List.any_eq_true] at h ⊢
  obtain ⟨p, hp, hs⟩ := h
  exact ⟨p, hp, strStartsWith_trans_append d p t hs⟩

theorem matchesPattern_appendBenchText (d bench : String)
    (h : matchesPattern d = true) :
    matchesPattern (appendBenchText d bench) = true := by
  unfold appendBenchText
  exact matchesPattern_append (d ++ " ") bench (matchesPattern_append d " " h)

theorem alreadyEnriched_appendBenchText (d bench : String) :
    alreadyEnriched (appendBenchText d bench) bench = true := by
  unfold alreadyEnriched appendBenchText
  exact strEndsWith_append (d ++ " ") bench

/-! ## Connectors -/

/-- The fixed default used when a source record lacks a description. -/
def SENTINEL_DESCRIPTION : String := "No description provided."

/-- Copy a source value, substituting the sentinel when the source lacks
the information. -/
def orDefault (s dflt : String) : String := if s = "" then dflt else s

/-- One CVE source record, as retrieved from the vulnerability database
by identifier. -/
structure CveRecord where
  id : String
  description : String
  severity : SeverityEnum
  published : String
deriving DecidableEq

/-- Modelled from the spec: the CVE connector (`connectors/cve.py`, not
included in the sources) maps one CVE record into a Report, copying the
source description into both description fields (sentinel when absent)
and attaching a CVSS-derived tag carrying the source severity score to
the impact section. -/
def convert_cve (rec : CveRecord) : Report :=
  { data_type := "AVID"
    metadata := some rec.id
    affects :=
      { developer := []
        deployer := []
        artifacts := [{ type := ArtifactTypeEnum.system, name := rec.id }] }
    problemtype :=
      { classof := "CVE"
        type := some "Detection"
        description := { lang := "eng", value := orDefault rec.description SENTINEL_DESCRIPTION } }
    metrics := []
    references := [{ label := rec.id, url := "https://nvd.nist.gov/vuln/detail/" ++ rec.id }]
    description := { lang := "eng", value := orDefault rec.description SENTINEL_DESCRIPTION }
    impact :=
      { avid :=
          { risk_domain := [RiskDomain.security]
            lifecycle_view := [LifecycleEnum.L05, LifecycleEnum.L06]
            taxonomy_version := "0.2" }
        cvss := some { severity := rec.severity }
        sources := [TaxonomySource.avid, TaxonomySource.cve] }
    credit := none
    reported_date := rec.published }

/-- One ATLAS case-study source record. -/
structure CaseStudy where
  id : String
  name : String
  summary : String
  target : String
  reported_date : String
deriving DecidableEq

/-- Modelled from the spec: the ATLAS case-study connector
(`connectors/atlas.py`, not included in the sources) maps one case study
into a Report, with required fields set to a faithfully copied source
value or the fixed sentinel. -/
def convert_case_study (cs : CaseStudy) : Report :=
  { data_type := "AVID"
    metadata := some cs.id
    affects :=
      { developer := []
        deployer := [cs.target]
        artifacts := [{ type := ArtifactTypeEnum.system, name := cs.target }] }
    problemtype :=
      { classof := "ATLAS Case Study"
        type := some "Advisory"
        description := { lang := "eng", value := orDefault cs.name SENTINEL_DESCRIPTION } }
    metrics := []
    references := [{ label := cs.name, url := "https://atlas.mitre.org/studies/" ++ cs.id }]
    description := { lang := "eng", value := orDefault cs.summary SENTINEL_DESCRIPTION }
    impact :=
      { avid :=
          { risk_domain := [RiskDomain.security]
            lifecycle_view := [LifecycleEnum.L05, LifecycleEnum.L06]
            taxonomy_version := "0.2" }
        cvss := none
        sources := [TaxonomySource.avid, TaxonomySource.atlas] }
    credit := none
    reported_date := cs.reported_date }

/-- One evaluation-log source record (one entry of an Inspect `.eval` /
`.json` log): the evaluated task, the evaluated artifact, and one scorer
result. -/
structure EvalLog where
  task : String
  model_name : String
  artifact_type : ArtifactTypeEnum
  scorer : String
  score_result : String
  run_date : String
deriving DecidableEq

/-- Modelled from the spec: the evaluation-log (Inspect) connector
(`connectors/inspect.py`, not included in the sources) maps one log entry
into a Report whose problem description is the generated
"Evaluation of the <subject> on <task>" phrasing, using the same
subject-label function as the normalization matcher. -/
def convert_eval_log (log : EvalLog) : Report :=
  { data_type := "AVID"
    metadata := none
    affects :=
      { developer := []
        deployer := []
        artifacts := [{ type := log.artifact_type, name := log.model_name }] }
    problemtype :=
      { classof := "LLM Evaluation"
        type := some "Detection"
        description :=
          { lang := "eng"
            value := initialProblemDescription log.artifact_type log.task } }
    metrics := [{ name := log.scorer, detection_method := "Inspect", results := log.score_result }]
    references := []
    description :=
      { lang := "eng"
        value := initialProblemDescription log.artifact_type log.task }
    impact :=
      { avid :=
          { risk_domain := [RiskDomain.performance]
            lifecycle_view := [LifecycleEnum.L04]
            taxonomy_version := "0.2" }
        cvss := none
        sources := [TaxonomySource.avid] }
    credit := none
    reported_date := log.run_date }

/-! ## URL (scraping) connector: bounded retry of parse failures -/

/-- The error kinds a connector can fail with. -/
inductive ConnectorError
  | validationError
  | fetchError
  | parseError
deriving DecidableEq

/-- The structured data extracted by the text-generation service from a
scraped page, once it parses. -/
structure GeneratedData where
  title : String
  summary : String
  artifact_name : String
  reported_date : String
deriving DecidableEq

/-- Modelled from the spec: report construction from one successfully
parsed generated structure in `connectors/url.py` (not included in the
sources). -/
def buildUrlReport (g : GeneratedData) : Report :=
  { data_type := "AVID"
    metadata := none
    affects :=
      { developer := []
        deployer := []
        artifacts := [{ type := ArtifactTypeEnum.model, name := g.artifact_name }] }
    problemtype :=
      { classof := "LLM Evaluation"
        type := some "Issue"
        description := { lang := "eng", value := orDefault g.title SENTINEL_DESCRIPTION } }
    metrics := []
    references := []
    description := { lang := "eng", value := orDefault g.summary SENTINEL_DESCRIPTION }
    impact :=
      { avid :=
          { risk_domain := [RiskDomain.security]
            lifecycle_view := [LifecycleEnum.L05]
            taxonomy_version := "0.2" }
        cvss := none
        sources := [TaxonomySource.avid, TaxonomySource.atlas] }
    credit := none
    reported_date := g.reported_date }

/-- The default bounded retry count of the scraping connector: two
additional attempts. -/
def DEFAULT_MAX_RETRIES : Nat := 2

/-- Modelled from the spec: the parse-and-retry loop of
`URLConnector.create_report_from_url`. `gen` gives the outcome of the
text-generation call on each attempt (attempts are numbered from 0).
Only a parse failure is re-asked, and only while retry budget remains;
validation and fetch failures surface immediately. -/
def retryLoop (gen : Nat → Except ConnectorError GeneratedData) :
    Nat → Nat → Except ConnectorError Report
  | i, 0 =>
    match gen i with
    | Except.ok g => Except.ok (buildUrlReport g)
    | Except.error e => Except.error e
  | i, fuel + 1 =>
    match gen i with
    | Except.ok g => Except.ok (buildUrlReport g)
    | Except.error ConnectorError.parseError => retryLoop gen (i + 1) fuel
    | Except.error e => Except.error e

/-- Modelled from the spec: `URLConnector.create_report_from_url` with an
explicit `max_retries` budget of additional attempts. -/
def create_report_from_url (gen : Nat → Except ConnectorError GeneratedData)
    (maxRetries : Nat) : Except ConnectorError Report :=
  retryLoop gen 0 maxRetries

/-! ## Serialization to structured (JSON-like) text -/

/-- One node of the structured (JSON-like) serialization format. -/
inductive JsonValue
  | null
  | str (s : String)
  | arr (xs : List JsonValue)
  | obj (fields : List (String × JsonValue))

/-- Serialize an optional string. -/
def encodeOptString : Option String → JsonValue
  | none => JsonValue.null
  | some s => JsonValue.str s

/-- Parse an optional string. -/
def decodeOptString : JsonValue → Option (Option String)
  | JsonValue.null => some none
  | JsonValue.str s => some (some s)
  | _ => none

/-- The serialized name of an artifact type. -/
def artifactTypeToString : ArtifactTypeEnum → String
  | ArtifactTypeEnum.dataset => "Dataset"
  | ArtifactTypeEnum.model => "Model"
  | ArtifactTypeEnum.system => "System"

/-- Parse an artifact type from its serialized name. -/
def artifactTypeOfString : String → Option ArtifactTypeEnum
  | "Dataset" => some ArtifactTypeEnum.dataset
  | "Model" => some ArtifactTypeEnum.model
  | "System" => some ArtifactTypeEnum.system
  | _ => none

/-- The serialized name of a risk domain. -/
def riskDomainToString : RiskDomain → String
  | RiskDomain.security => "Security"
  | RiskDomain.ethics => "Ethics"
  | RiskDomain.performance => "Performance"

/-- Parse a risk domain from its serialized name. -/
def riskDomainOfString : String → Option RiskDomain
  | "Security" => some RiskDomain.security
  | "Ethics" => some RiskDomain.ethics
  | "Performance" => some RiskDomain.performance
  | _ => none

/-- The serialized name of a lifecycle stage. -/
def lifecycleToString : LifecycleEnum → String
  | LifecycleEnum.L01 => "L01"
  | LifecycleEnum.L02 => "L02"
  | LifecycleEnum.L03 => "L03"
  | LifecycleEnum.L04 => "L04"
  | LifecycleEnum.L05 => "L05"
  | LifecycleEnum.L06 => "L06"

/-- Parse a lifecycle stage from its serialized name. -/
def lifecycleOfString : String → Option LifecycleEnum
  | "L01" => some LifecycleEnum.L01
  | "L02" => some LifecycleEnum.L02
  | "L03" => some LifecycleEnum.L03
  | "L04" => some LifecycleEnum.L04
  | "L05" => some LifecycleEnum.L05
  | "L06" => some LifecycleEnum.L06
  | _ => none

/-- Serialize a language-tagged value. -/
def encodeLangValue (lv : LangValue) : JsonValue :=
  JsonValue.obj [("lang", JsonValue.str lv.lang), ("value", JsonValue.str lv.value)]

/-- Parse a language-tagged value. -/
def decodeLangValue : JsonValue → Option LangValue
  | JsonValue.obj [("lang", JsonValue.str l), ("value", JsonValue.str v)] =>
    some { lang := l, value := v }
  | _ => none

/-- Serialize an artifact. -/
def encodeArtifact (a : Artifact) : JsonValue :=
  JsonValue.obj [("type", JsonValue.str (artifactTypeToString a.type)),
    ("name", JsonValue.str a.name)]

/-- Parse an artifact. -/
def decodeArtifact : JsonValue → Option Artifact
  | JsonValue.obj [("type", JsonValue.str t), ("name", JsonValue.str n)] =>
    match artifactTypeOfString t with
    | some ty => some { type := ty, name := n }
    | none => none
  | _ => none

/-- Parse each element of a node list, failing when any element fails. -/
def decodeEach {α : Type} (dec : JsonValue → Option α) : List JsonValue → Option (List α)
  | [] => some []
  | j :: js =>
    match dec j, decodeEach dec js with
    | some x, some xs => some (x :: xs)
    | _, _ => none

/-- Parse a homogeneous array with an element parser. -/
def decodeList {α : Type} (dec : JsonValue → Option α) : JsonValue → Option (List α)
  | JsonValue.arr xs => decodeEach dec xs
  | _ => none

/-- Serialize a list of strings. -/
def encodeStrList (l : List String) : JsonValue :=
  JsonValue.arr (l.map JsonValue.str)

/-- Parse one string. -/
def decodeStr : JsonValue → Option String
  | JsonValue.str s => some s
  | _ => none

/-- Serialize the affects component. -/
def encodeAffects (a : Affects) : JsonValue :=
  JsonValue.obj [("developer", encodeStrList a.developer),
    ("deployer", encodeStrList a.deployer),
    ("artifacts", JsonValue.arr (a.artifacts.map encodeArtifact))]

/-- Parse the affects component. -/
def decodeAffects : JsonValue → Option Affects
  | JsonValue.obj [("developer", dev), ("deployer", dep), ("artifacts", arts)] => do
    let d ← decodeList decodeStr dev
    let p ← decodeList decodeStr dep
    let ar ← decodeList decodeArtifact arts
    some { developer := d, deployer := p, artifacts := ar }
  | _ => none

/-- Serialize the problemtype component. -/
def encodeProblemtype (p : Problemtype) : JsonValue :=
  JsonValue.obj [("classof", JsonValue.str p.classof),
    ("type", encodeOptString p.type),
    ("description", encodeLangValue p.description)]

/-- Parse the problemtype component. -/
def decodeProblemtype : JsonValue → Option Problemtype
  | JsonValue.obj [("classof", JsonValue.str c), ("type", t), ("description", d)] => do
    let ty ← decodeOptString t
    let dv ← decodeLangValue d
    some { classof := c, type := ty, description := dv }
  | _ => none

/-- Serialize a metric. -/
def encodeMetric (m : Metric) : JsonValue :=
  JsonValue.obj [("name", JsonValue.str m.name),
    ("detection_method", JsonValue.str m.detection_method),
    ("results", JsonValue.str m.results)]

/-- Parse a metric. -/
def decodeMetric : JsonValue → Option Metric
  | JsonValue.obj [("name", JsonValue.str n), ("detection_method", JsonValue.str dm),
      ("results", JsonValue.str r)] =>
    some { name := n, detection_method := dm, results := r }
  | _ => none

/-- Serialize a reference. -/
def encodeReference (r : Reference) : JsonValue :=
  JsonValue.obj [("label", JsonValue.str r.label), ("url", JsonValue.str r.url)]

/-- Parse a reference. -/
def decodeReference : JsonValue → Option Reference
  | JsonValue.obj [("label", JsonValue.str l), ("url", JsonValue.str u)] =>
    some { label := l, url := u }
  | _ => none

/-- Serialize the AVID taxonomy block. -/
def encodeAvidTaxonomy (t : AvidTaxonomy) : JsonValue :=
  JsonValue.obj [("risk_domain", JsonValue.arr (t.risk_domain.map (fun d => JsonValue.str (riskDomainToString d)))),
    ("lifecycle_view", JsonValue.arr (t.lifecycle_view.map (fun l => JsonValue.str (lifecycleToString l)))),
    ("taxonomy_version", JsonValue.str t.taxonomy_version)]

/-- Parse one risk domain node. -/
def decodeRiskDomain (j : JsonValue) : Option RiskDomain :=
  match j with
  | JsonValue.str s => riskDomainOfString s
  | _ => none

/-- Parse one lifecycle node. -/
def decodeLifecycle (j : JsonValue) : Option LifecycleEnum :=
  match j with
  | JsonValue.str s => lifecycleOfString s
  | _ => none

/-- Parse the AVID taxonomy block. -/
def decodeAvidTaxonomy : JsonValue → Option AvidTaxonomy
  | JsonValue.obj [("risk_domain", rd), ("lifecycle_view", lv),
      ("taxonomy_version", JsonValue.str tv)] => do
    let rds ← decodeList decodeRiskDomain rd
    let lvs ← decodeList decodeLifecycle lv
    some { risk_domain := rds, lifecycle_view := lvs, taxonomy_version := tv }
  | _ => none

/-- The serialized name of a CVSS severity category. -/
def severityToString : SeverityEnum → String
  | SeverityEnum.low => "LOW"
  | SeverityEnum.medium => "MEDIUM"
  | SeverityEnum.high => "HIGH"
  | SeverityEnum.critical => "CRITICAL"

/-- Parse a CVSS severity category from its serialized name. -/
def severityOfString : String → Option SeverityEnum
  | "LOW" => some SeverityEnum.low
  | "MEDIUM" => some SeverityEnum.medium
  | "HIGH" => some SeverityEnum.high
  | "CRITICAL" => some SeverityEnum.critical
  | _ => none

/-- The serialized name of a taxonomy source tag. -/
def taxonomySourceToString : TaxonomySource → String
  | TaxonomySource.avid => "avid"
  | TaxonomySource.atlas => "atlas"
  | TaxonomySource.cve => "cve"
  | TaxonomySource.odin => "odin"

/-- Parse a taxonomy source tag from its serialized name. -/
def taxonomySourceOfString : String → Option TaxonomySource
  | "avid" => some TaxonomySource.avid
  | "atlas" => some TaxonomySource.atlas
  | "cve" => some TaxonomySource.cve
  | "odin" => some TaxonomySource.odin
  | _ => none

/-- Parse one taxonomy source node. -/
def decodeTaxonomySource (j : JsonValue) : Option TaxonomySource :=
  match j with
  | JsonValue.str s => taxonomySourceOfString s
  | _ => none

/-- Serialize the optional CVSS scores. -/
def encodeCvss : Option CvssScores → JsonValue
  | none => JsonValue.null
  | some c => JsonValue.obj [("severity", JsonValue.str (severityToString c.severity))]

/-- Parse the optional CVSS scores. -/
def decodeCvss : JsonValue → Option (Option CvssScores)
  | JsonValue.null => some none
  | JsonValue.obj [("severity", JsonValue.str s)] =>
    match severityOfString s with
    | some sev => some (some { severity := sev })
    | none => none
  | _ => none

/-- Serialize the impact section. -/
def encodeImpact (i : Impact) : JsonValue :=
  JsonValue.obj [("avid", encodeAvidTaxonomy i.avid), ("cvss", encodeCvss i.cvss),
    ("sources", JsonValue.arr (i.sources.map (fun s => JsonValue.str (taxonomySourceToString s))))]

/-- Parse the impact section. -/
def decodeImpact : JsonValue → Option Impact
  | JsonValue.obj [("avid", a), ("cvss", c), ("sources", ss)] => do
    let av ← decodeAvidTaxonomy a
    let cv ← decodeCvss c
    let srcs ← decodeList decodeTaxonomySource ss
    some { avid := av, cvss := cv, sources := srcs }
  | _ => none

/-- Serialize a full report to the structured format. -/
def encodeReport (r : Report) : JsonValue :=
  JsonValue.obj [("data_type", JsonValue.str r.data_type),
    ("metadata", encodeOptString r.metadata),
    ("affects", encodeAffects r.affects),
    ("problemtype", encodeProblemtype r.problemtype),
    ("metrics", JsonValue.arr (r.metrics.map encodeMetric)),
    ("references", JsonValue.arr (r.references.map encodeReference)),
    ("description", encodeLangValue r.description),
    ("impact", encodeImpact r.impact),
    ("credit", encodeOptString r.credit),
    ("reported_date", JsonValue.str r.reported_date)]

/-- Parse a full report from the structured format. -/
def decodeReport : JsonValue → Option Report
  | JsonValue.obj [("data_type", JsonValue.str dt), ("metadata", m), ("affects", a),
      ("problemtype", p), ("metrics", ms), ("references", rs), ("description", d),
      ("impact", im), ("credit", c), ("reported_date", JsonValue.str rd)] => do
    let md ← decodeOptString m
    let af ← decodeAffects a
    let pt ← decodeProblemtype p
    let mss ← decodeList decodeMetric ms
    let rss ← decodeList decodeReference rs
    let dv ← decodeLangValue d
    let imp ← decodeImpact im
    let cr ← decodeOptString c
    some { data_type := dt, metadata := md, affects := af, problemtype := pt,
           metrics := mss, references := rss, description := dv, impact := imp,
           credit := cr, reported_date := rd }
  | _ => none

/-! ## PyPI publish workflow: version consistency check

Embedded from the publish workflow YAML (`Publish to PyPI`) and the
`test_version_logic.sh` script. A job is a list of steps run in order;
a step runs when its `if:` condition holds on the current outputs, and a
step that exits nonzero stops the job (later steps are not reached). -/

/-- `${RELEASE_TAG#v}` on the character list: remove one leading `v`
when present. -/
def stripV (l : List Char) : List Char :=
  match l with
  | c :: rest => if c = 'v' then rest else c :: rest
  | [] => []

/-- The tag version extracted by the `Check version consistency` step:
the release tag with a single leading `v` removed when present. -/
def tagVersion (tag : String) : String := String.mk (stripV tag.data)

/-- The `version_mismatch` output: true exactly when the pyproject
version and the extracted tag version differ. -/
def versionMismatchOutput (pyprojectVersion tagVer : String) : Bool :=
  pyprojectVersion != tagVer

/-- Modelled from the spec: a version string as produced by
`poetry version -s` (a PEP 440 package version) begins with a digit. -/
def versionStringOk (s : String) : Bool :=
  match s.data with
  | c :: _ => c.isDigit
  | [] => false

/-- The step outputs and inputs threaded through the publish job. -/
structure GhEnv where
  pyproject_version : String
  release_tag : String
  version_mismatch : Bool
deriving DecidableEq

/-- One workflow step: name, `if:` condition, and an action returning the
updated outputs and whether the step succeeded. -/
structure StepDef where
  name : String
  condIf : GhEnv → Bool
  run : GhEnv → GhEnv × Bool

/-- Run steps in order: a step whose condition is false is skipped, a
failing step ends the job with failure, and the names of the executed
steps are collected. -/
def runSteps : List StepDef → GhEnv → List String × Bool
  | [], _ => ([], true)
  | s :: rest, env =>
    if s.condIf env then
      let out := s.run env
      if out.2 then
        let tail := runSteps rest out.1
        (s.name :: tail.1, tail.2)
      else ([s.name], false)
    else runSteps rest env

/-- An unconditional step that succeeds and changes no outputs. -/
def okStep (n : String) : StepDef :=
  { name := n, condIf := fun _ => true, run := fun env => (env, true) }

/-- The `Check version consistency` step: computes the tag version and
sets the `version_mismatch` output. -/
def versionCheckStep : StepDef :=
  { name := "Check version consistency"
    condIf := fun _ => true
    run := fun env =>
      ({ env with
         version_mismatch :=
           versionMismatchOutput env.pyproject_version (tagVersion env.release_tag) },
       true) }

/-- The `Create version update PR` step, gated on the mismatch output. -/
def createPrStep : StepDef :=
  { name := "Create version update PR"
    condIf := fun env => env.version_mismatch
    run := fun env => (env, true) }

/-- The `Stop workflow if version mismatch` step, gated on the mismatch
output; it runs `exit 1`, so it fails. -/
def stopStep : StepDef :=
  { name := "Stop workflow if version mismatch"
    condIf := fun env => env.version_mismatch
    run := fun env => (env, false) }

/-- The publish job's step list, in the order of the workflow file. The
non-version steps carry no outputs and are modelled as succeeding, which
is the relevant case for reachability of the publish step. -/
def publishJob : List StepDef :=
  [okStep "Checkout repository",
   okStep "Set up Python",
   okStep "Install Poetry",
   okStep "Cache Poetry dependencies",
   okStep "Install dependencies",
   versionCheckStep,
   createPrStep,
   stopStep,
   okStep "Run tests",
   okStep "Run linting",
   okStep "Run type checking",
   okStep "Build package",
   okStep "Publish to PyPI"]

/-- The job outputs at the start of a release run. -/
def initEnv (pyver tag : String) : GhEnv :=
  { pyproject_version := pyver, release_tag := tag, version_mismatch := false }

/-! ## Lemmas: normalization -/

theorem normalize_idem (fetched : Option String) (r : Report) :
    normalize fetched (normalize fetched r) = normalize fetched r := by
  unfold normalize
  by_cases h : matchesPattern r.problemtype.description.value = true
  · cases fetched with
    | none => simp [h]
    | some bench =>
      by_cases h2 : alreadyEnriched r.problemtype.description.value bench = true
      · simp [h, h2]
      · simp [h, h2, matchesPattern_appendBenchText _ _ h,
          alreadyEnriched_appendBenchText]
  · simp [h]

theorem writer_matcher_agree (t : ArtifactTypeEnum) (task : String) :
    matchesPattern (initialProblemDescription t task) = true := by
  unfold matchesPattern initialProblemDescription
  rw [List.any_eq_true]
  refine ⟨PATTERN_HEAD ++ subjectLabel t, ?_, strStartsWith_append _ _⟩
  cases t <;>
    simp [INSPECT_MODEL_PREFIXES, SUBJECT_LABELS, subjectLabel, DEFAULT_SUBJECT]

/-! ## Claim theorems: normalization -/

/-- Claim C1: normalization is idempotent — for every Report `r` and every
lookup outcome, `normalize (normalize r) = normalize r`; moreover the
recognizer pattern still matches an already-enriched description, so the
fetched benchmark text is never appended a second time. -/
theorem claim_c1_normalize_idempotent :
    (∀ (fetched : Option String) (r : Report),
      normalize fetched (normalize fetched r) = normalize fetched r) ∧
    (∀ (d bench : String), matchesPattern d = true →
      matchesPattern (appendBenchText d bench) = true) :=
  ⟨normalize_idem, matchesPattern_appendBenchText⟩

/-- Claim C1 witness: idempotence and pattern preservation evaluated at a
concrete description. -/
theorem claim_c1_witness :
    matchesPattern "Evaluation of the LLM on the mmlu benchmark" = true ∧
    matchesPattern
      (appendBenchText "Evaluation of the LLM on the mmlu benchmark"
        "MMLU measures knowledge across 57 subjects.") = true :=
  ⟨by decide,
   claim_c1_normalize_idempotent.2 "Evaluation of the LLM on the mmlu benchmark"
     "MMLU measures knowledge across 57 subjects." (by decide)⟩

/-- Claim C2: when the benchmark lookup fails (modelled by a `none`
lookup outcome), normalization returns the Report unchanged — in
particular both description fields keep their pre-normalization values —
and, being a total function, never raises to the caller. -/
theorem claim_c2_fetch_failure_unchanged (r : Report) :
    normalize none r = r := by
  unfold normalize
  split <;> rfl

/-- Claim C3: subject-label selection is a total deterministic function
into {"LLM", "AI system"}: `model` maps to "LLM", `system` maps to
"AI system", every other artifact type maps to the single default label;
and the matcher recognizes every description the writer produces, for
every artifact type. -/
theorem claim_c3_subject_label_total :
    (∀ t, subjectLabel t = "LLM" ∨ subjectLabel t = "AI system") ∧
    subjectLabel ArtifactTypeEnum.model = "LLM" ∧
    subjectLabel ArtifactTypeEnum.system = "AI system" ∧
    (∀ t, t ≠ ArtifactTypeEnum.model → t ≠ ArtifactTypeEnum.system →
      subjectLabel t = DEFAULT_SUBJECT) ∧
    (∀ t task, matchesPattern (initialProblemDescription t task) = true) := by
  refine ⟨?_, rfl, rfl, ?_, writer_matcher_agree⟩
  · intro t; cases t <;> simp [subjectLabel, DEFAULT_SUBJECT]
  · intro t h1 h2; cases t
    · rfl
    · exact absurd rfl h1
    · exact absurd rfl h2

/-- Claim C3 witness: the default case and the writer/matcher agreement
evaluated at the dataset artifact type. -/
theorem claim_c3_witness :
    ArtifactTypeEnum.dataset ≠ ArtifactTypeEnum.model ∧
    subjectLabel ArtifactTypeEnum.dataset = DEFAULT_SUBJECT ∧
    matchesPattern (initialProblemDescription ArtifactTypeEnum.dataset "mmlu") = true :=
  ⟨by decide,
   claim_c3_subject_label_total.2.2.2.1 ArtifactTypeEnum.dataset (by decide) (by decide),
   claim_c3_subject_label_total.2.2.2.2 ArtifactTypeEnum.dataset "mmlu"⟩

/-- Claim C6: normalization mutates only the description fields — every
other field of the Report (and the non-value parts of the description
components) is unchanged for every lookup outcome. -/
theorem claim_c6_normalize_frame (fetched : Option String) (r : Report) :
    (normalize fetched r).data_type = r.data_type ∧
    (normalize fetched r).metadata = r.metadata ∧
    (normalize fetched r).affects = r.affects ∧
    (normalize fetched r).problemtype.classof = r.problemtype.classof ∧
    (normalize fetched r).problemtype.type = r.problemtype.type ∧
    (normalize fetched r).problemtype.description.lang = r.problemtype.description.lang ∧
    (normalize fetched r).metrics = r.metrics ∧
    (normalize fetched r).references = r.references ∧
    (normalize fetched r).description.lang = r.description.lang ∧
    (normalize fetched r).impact = r.impact ∧
    (normalize fetched r).credit = r.credit ∧
    (normalize fetched r).reported_date = r.reported_date := by
  unfold normalize
  by_cases h : matchesPattern r.problemtype.description.value = true
  · cases fetched with
    | none => simp [h]
    | some bench =>
      by_cases h2 : alreadyEnriched r.problemtype.description.value bench = true
      · simp [h, h2]
      · simp [h, h2]
  · simp [h]

/-! ## Lemmas and claims: connector invariants -/

/-- The Report invariant a finished connector guarantees: required
description fields are non-empty and every taxonomy tag — risk domain,
lifecycle stage, artifact type, taxonomy source tag, and the CVSS
severity tag when present — is drawn from its declared vocabulary. -/
def reportWellFormed (r : Report) : Prop :=
  r.problemtype.description.value ≠ "" ∧
  r.description.value ≠ "" ∧
  (∀ d ∈ r.impact.avid.risk_domain, d ∈ RISK_DOMAIN_VOCAB) ∧
  (∀ l ∈ r.impact.avid.lifecycle_view, l ∈ LIFECYCLE_VOCAB) ∧
  (∀ a ∈ r.affects.artifacts, a.type ∈ ARTIFACT_TYPE_VOCAB) ∧
  (∀ s ∈ r.impact.sources, s ∈ TAXONOMY_SOURCE_VOCAB) ∧
  (∀ c ∈ r.impact.cvss.toList, c.severity ∈ CVSS_SEVERITY_VOCAB)

theorem orDefault_ne_empty (s d : String) (hd : d ≠ "") :
    orDefault s d ≠ "" := by
  unfold orDefault
  split
  · exact hd
  · assumption

theorem severity_mem_vocab (s : SeverityEnum) : s ∈ CVSS_SEVERITY_VOCAB := by
  cases s <;> simp [CVSS_SEVERITY_VOCAB]

theorem taxonomySource_mem_vocab (s : TaxonomySource) :
    s ∈ TAXONOMY_SOURCE_VOCAB := by
  cases s <;> simp [TAXONOMY_SOURCE_VOCAB]

theorem artifactType_mem_vocab (t : ArtifactTypeEnum) :
    t ∈ ARTIFACT_TYPE_VOCAB := by
  cases t <;> simp [ARTIFACT_TYPE_VOCAB]

theorem initialProblemDescription_ne_empty (t : ArtifactTypeEnum) (task : String) :
    initialProblemDescription t task ≠ "" := by
  intro h
  have hd := congrArg String.data h
  unfold initialProblemDescription at hd
  rw [String.data_append, String.data_append] at hd
  simp [PATTERN_HEAD] at hd

theorem convert_cve_wellFormed (rec : CveRecord) :
    reportWellFormed (convert_cve rec) := by
  unfold reportWellFormed convert_cve
  exact ⟨orDefault_ne_empty _ _ (by decide), orDefault_ne_empty _ _ (by decide),
    by simp [RISK_DOMAIN_VOCAB], by simp [LIFECYCLE_VOCAB],
    fun a _ => artifactType_mem_vocab a.type,
    fun s _ => taxonomySource_mem_vocab s,
    fun c _ => severity_mem_vocab c.severity⟩

theorem convert_case_study_wellFormed (cs : CaseStudy) :
    reportWellFormed (convert_case_study cs) := by
  unfold reportWellFormed convert_case_study
  exact ⟨orDefault_ne_empty _ _ (by decide), orDefault_ne_empty _ _ (by decide),
    by simp [RISK_DOMAIN_VOCAB], by simp [LIFECYCLE_VOCAB],
    fun a _ => artifactType_mem_vocab a.type,
    fun s _ => taxonomySource_mem_vocab s,
    fun c _ => severity_mem_vocab c.severity⟩

theorem convert_eval_log_wellFormed (log : EvalLog) :
    reportWellFormed (convert_eval_log log) := by
  unfold reportWellFormed convert_eval_log
  exact ⟨initialProblemDescription_ne_empty _ _,
    initialProblemDescription_ne_empty _ _,
    by simp [RISK_DOMAIN_VOCAB], by simp [LIFECYCLE_VOCAB],
    fun a _ => artifactType_mem_vocab a.type,
    fun s _ => taxonomySource_mem_vocab s,
    fun c _ => severity_mem_vocab c.severity⟩

theorem buildUrlReport_wellFormed (g : GeneratedData) :
    reportWellFormed (buildUrlReport g) := by
  unfold reportWellFormed buildUrlReport
  exact ⟨orDefault_ne_empty _ _ (by decide), orDefault_ne_empty _ _ (by decide),
    by simp [RISK_DOMAIN_VOCAB], by simp [LIFECYCLE_VOCAB],
    fun a _ => artifactType_mem_vocab a.type,
    fun s _ => taxonomySource_mem_vocab s,
    fun c _ => severity_mem_vocab c.severity⟩

/-- Claim C4: every connector — CVE, case study, evaluation log, and
scraped content — maps every valid source record to a Report whose
required description fields are non-empty and whose taxonomy tag fields
(risk domains, lifecycle stages, artifact types, taxonomy source tags,
and the CVSS severity tag) only hold values of the declared closed
enumerations. -/
theorem claim_c4_connector_invariants :
    (∀ rec : CveRecord, reportWellFormed (convert_cve rec)) ∧
    (∀ cs : CaseStudy, reportWellFormed (convert_case_study cs)) ∧
    (∀ log : EvalLog, reportWellFormed (convert_eval_log log)) ∧
    (∀ g : GeneratedData, reportWellFormed (buildUrlReport g)) :=
  ⟨convert_cve_wellFormed, convert_case_study_wellFormed,
   convert_eval_log_wellFormed, buildUrlReport_wellFormed⟩

/-- Claim C4 witness: the invariant instantiated at a concrete CVE
record and a concrete evaluation-log entry. -/
theorem claim_c4_witness :
    reportWellFormed
      (convert_cve
        { id := "CVE-2024-0001", description := "A prompt injection flaw.",
          severity := SeverityEnum.high, published := "2024-01-15" }) ∧
    reportWellFormed
      (convert_eval_log
        { task := "mmlu", model_name := "example-model",
          artifact_type := ArtifactTypeEnum.model, scorer := "accuracy",
          score_result := "0.71", run_date := "2024-01-15" }) :=
  ⟨claim_c4_connector_invariants.1
    { id := "CVE-2024-0001", description := "A prompt injection flaw.",
      severity := SeverityEnum.high, published := "2024-01-15" },
   claim_c4_connector_invariants.2.2.1
    { task := "mmlu", model_name := "example-model",
      artifact_type := ArtifactTypeEnum.model, scorer := "accuracy",
      score_result := "0.71", run_date := "2024-01-15" }⟩

/-- `t` occurs inside `s` as a contiguous substring. -/
def containsStr (s t : String) : Prop := t.data <:+: s.data

/-- Claim C7: a CVE record with identifier CVE-2024-0001 carrying a
textual description yields a Report whose `problemtype.description.value`
contains that source text and whose impact carries a CVSS-derived tag
equal to the severity score of the source record. -/
theorem claim_c7_cve_scenario (rec : CveRecord)
    (_hid : rec.id = "CVE-2024-0001") (hd : rec.description ≠ "") :
    containsStr (convert_cve rec).problemtype.description.value rec.description ∧
    (convert_cve rec).impact.cvss = some { severity := rec.severity } := by
  constructor
  · unfold containsStr convert_cve orDefault
    simp [hd]
  · rfl

/-- Claim C7 witness: the scenario evaluated at a concrete CVE record. -/
theorem claim_c7_witness :
    ("CVE-2024-0001" : String) = "CVE-2024-0001" ∧
    ("A prompt injection flaw." : String) ≠ "" ∧
    (containsStr
      (convert_cve
        { id := "CVE-2024-0001", description := "A prompt injection flaw.",
          severity := SeverityEnum.high, published := "2024-01-15" }).problemtype.description.value
      "A prompt injection flaw." ∧
     (convert_cve
        { id := "CVE-2024-0001", description := "A prompt injection flaw.",
          severity := SeverityEnum.high, published := "2024-01-15" }).impact.cvss =
       some { severity := SeverityEnum.high }) :=
  ⟨rfl, by decide,
   claim_c7_cve_scenario
     { id := "CVE-2024-0001", description := "A prompt injection flaw.",
       severity := SeverityEnum.high, published := "2024-01-15" } rfl (by decide)⟩

/-! ## Lemmas and claim: URL connector retry policy -/

theorem retryLoop_gen_ok (gen : Nat → Except ConnectorError GeneratedData)
    (i fuel : Nat) (g : GeneratedData) (h : gen i = Except.ok g) :
    retryLoop gen i fuel = Except.ok (buildUrlReport g) := by
  cases fuel <;> (simp only [retryLoop]; rw [h])

theorem retryLoop_gen_other (gen : Nat → Except ConnectorError GeneratedData)
    (i fuel : Nat) (e : ConnectorError)
    (he : e ≠ ConnectorError.parseError) (h : gen i = Except.error e) :
    retryLoop gen i fuel = Except.error e := by
  cases e
  · cases fuel <;> (simp only [retryLoop]; rw [h])
  · cases fuel <;> (simp only [retryLoop]; rw [h])
  · exact absurd rfl he

theorem retryLoop_parse_zero (gen : Nat → Except ConnectorError GeneratedData)
    (i : Nat) (h : gen i = Except.error ConnectorError.parseError) :
    retryLoop gen i 0 = Except.error ConnectorError.parseError := by
  simp only [retryLoop]
  rw [h]

theorem retryLoop_parse_succ (gen : Nat → Except ConnectorError GeneratedData)
    (i f : Nat) (h : gen i = Except.error ConnectorError.parseError) :
    retryLoop gen i (f + 1) = retryLoop gen (i + 1) f := by
  simp only [retryLoop]
  rw [h]

theorem retryLoop_reaches_ok (gen : Nat → Except ConnectorError GeneratedData) :
    ∀ (k fuel i : Nat) (g : GeneratedData), k ≤ fuel →
      (∀ j, j < k → gen (i + j) = Except.error ConnectorError.parseError) →
      gen (i + k) = Except.ok g →
      retryLoop gen i fuel = Except.ok (buildUrlReport g) := by
  intro k
  induction k with
  | zero =>
    intro fuel i g _ _ hk
    exact retryLoop_gen_ok gen i fuel g (by simpa using hk)
  | succ n ih =>
    intro fuel i g hle hprev hk
    obtain ⟨f, rfl⟩ : ∃ f, fuel = f + 1 := ⟨fuel - 1, by omega⟩
    have h0 : gen i = Except.error ConnectorError.parseError := by
      simpa using hprev 0 (Nat.succ_pos n)
    rw [retryLoop_parse_succ gen i f h0]
    refine ih f (i + 1) g (by omega) (fun j hj => ?_) ?_
    · have := hprev (j + 1) (by omega)
      have e : i + (j + 1) = i + 1 + j := by omega
      rwa [e] at this
    · have e : i + (n + 1) = i + 1 + n := by omega
      rwa [e] at hk

theorem retryLoop_all_parse (gen : Nat → Except ConnectorError GeneratedData) :
    ∀ (fuel i : Nat),
      (∀ j, j ≤ fuel → gen (i + j) = Except.error ConnectorError.parseError) →
      retryLoop gen i fuel = Except.error ConnectorError.parseError := by
  intro fuel
  induction fuel with
  | zero =>
    intro i h
    exact retryLoop_parse_zero gen i (by simpa using h 0 (Nat.le_refl 0))
  | succ f ih =>
    intro i h
    rw [retryLoop_parse_succ gen i f (by simpa using h 0 (Nat.zero_le _))]
    refine ih (i + 1) (fun j hj => ?_)
    have := h (j + 1) (by omega)
    have e : i + (j + 1) = i + 1 + j := by omega
    rwa [e] at this

/-- Claim C5: only the scraping connector retries, and only on a parse
failure: with budget `maxRetries` (default 2 additional attempts) it
re-asks while the generated structure fails to parse, returning the
report built from the first attempt that parses within the budget;
exhausting the budget surfaces the ParseError; a ValidationError or
FetchError on an attempt is surfaced immediately without any retry. -/
theorem claim_c5_url_retry_policy :
    DEFAULT_MAX_RETRIES = 2 ∧
    (∀ (gen : Nat → Except ConnectorError GeneratedData) (maxRetries k : Nat)
       (g : GeneratedData), k ≤ maxRetries →
       (∀ j, j < k → gen j = Except.error ConnectorError.parseError) →
       gen k = Except.ok g →
       create_report_from_url gen maxRetries = Except.ok (buildUrlReport g)) ∧
    (∀ (gen : Nat → Except ConnectorError GeneratedData) (maxRetries : Nat),
       (∀ j, j ≤ maxRetries → gen j = Except.error ConnectorError.parseError) →
       create_report_from_url gen maxRetries = Except.error ConnectorError.parseError) ∧
    (∀ (gen : Nat → Except ConnectorError GeneratedData) (maxRetries : Nat)
       (e : ConnectorError), e ≠ ConnectorError.parseError →
       gen 0 = Except.error e →
       create_report_from_url gen maxRetries = Except.error e) := by
  refine ⟨rfl, ?_, ?_, ?_⟩
  · intro gen maxRetries k g hk hprev hok
    exact retryLoop_reaches_ok gen k maxRetries 0 g hk
      (fun j hj => by simpa using hprev j hj) (by simpa using hok)
  · intro gen maxRetries h
    exact retryLoop_all_parse gen maxRetries 0 (fun j hj => by simpa using h j hj)
  · intro gen maxRetries e he h0
    exact retryLoop_gen_other gen 0 maxRetries e he h0

/-- A concrete generated structure used by the retry witness. -/
def sampleGenerated : GeneratedData :=
  { title := "Prompt injection issue"
    summary := "An agent follows injected instructions."
    artifact_name := "example-model"
    reported_date := "2024-01-15" }

/-- A generation function that fails to parse on the first two attempts
and parses on the third. -/
def sampleGen (n : Nat) : Except ConnectorError GeneratedData :=
  if n < 2 then Except.error ConnectorError.parseError
  else Except.ok sampleGenerated

/-- Claim C5 witness: a generation function that fails to parse twice and
parses on the third attempt succeeds within the default budget of two
additional attempts. -/
theorem claim_c5_witness :
    DEFAULT_MAX_RETRIES = 2 ∧
    create_report_from_url sampleGen 2 = Except.ok (buildUrlReport sampleGenerated) :=
  ⟨claim_c5_url_retry_policy.1,
   claim_c5_url_retry_policy.2.1 sampleGen 2 2 sampleGenerated
     (Nat.le_refl 2)
     (fun j hj => by
       have hj01 : j = 0 ∨ j = 1 := by omega
       rcases hj01 with rfl | rfl <;> rfl)
     (by rfl)⟩

/-! ## Lemmas and claim: serialization round-trip -/

theorem decodeOptString_encode (o : Option String) :
    decodeOptString (encodeOptString o) = some o := by
  cases o <;> rfl

theorem artifactType_round (t : ArtifactTypeEnum) :
    artifactTypeOfString (artifactTypeToString t) = some t := by
  cases t <;> rfl

theorem riskDomain_round (d : RiskDomain) :
    riskDomainOfString (riskDomainToString d) = some d := by
  cases d <;> rfl

theorem lifecycle_round (l : LifecycleEnum) :
    lifecycleOfString (lifecycleToString l) = some l := by
  cases l <;> rfl

theorem decodeLangValue_encode (lv : LangValue) :
    decodeLangValue (encodeLangValue lv) = some lv := by
  cases lv
  rfl

theorem decodeArtifact_encode (a : Artifact) :
    decodeArtifact (encodeArtifact a) = some a := by
  cases a with
  | mk t n => simp [encodeArtifact, decodeArtifact, artifactType_round]

theorem decodeEach_map_round {α : Type} (enc : α → JsonValue)
    (dec : JsonValue → Option α) (h : ∀ x, dec (enc x) = some x) (l : List α) :
    decodeEach dec (l.map enc) = some l := by
  induction l with
  | nil => rfl
  | cons x xs ih => simp [decodeEach, h, ih]

theorem decodeList_encode {α : Type} (enc : α → JsonValue)
    (dec : JsonValue → Option α) (h : ∀ x, dec (enc x) = some x) (l : List α) :
    decodeList dec (JsonValue.arr (l.map enc)) = some l := by
  simp only [decodeList]
  exact decodeEach_map_round enc dec h l

theorem decodeStrList_encode (l : List String) :
    decodeList decodeStr (encodeStrList l) = some l :=
  decodeList_encode JsonValue.str decodeStr (fun _ => rfl) l

theorem decodeAffects_encode (a : Affects) :
    decodeAffects (encodeAffects a) = some a := by
  cases a with
  | mk dev dep arts =>
    simp [encodeAffects, decodeAffects, encodeStrList,
      decodeList_encode JsonValue.str decodeStr (fun _ => rfl),
      decodeList_encode encodeArtifact decodeArtifact decodeArtifact_encode]

theorem decodeProblemtype_encode (p : Problemtype) :
    decodeProblemtype (encodeProblemtype p) = some p := by
  cases p with
  | mk c t d =>
    simp [encodeProblemtype, decodeProblemtype, decodeOptString_encode,
      decodeLangValue_encode]

theorem decodeMetric_encode (m : Metric) :
    decodeMetric (encodeMetric m) = some m := by
  cases m
  rfl

theorem decodeReference_encode (r : Reference) :
    decodeReference (encodeReference r) = some r := by
  cases r
  rfl

theorem decodeRiskDomain_encode (d : RiskDomain) :
    decodeRiskDomain (JsonValue.str (riskDomainToString d)) = some d := by
  simp [decodeRiskDomain, riskDomain_round]

theorem decodeLifecycle_encode (l : LifecycleEnum) :
    decodeLifecycle (JsonValue.str (lifecycleToString l)) = some l := by
  simp [decodeLifecycle, lifecycle_round]

theorem decodeAvidTaxonomy_encode (t : AvidTaxonomy) :
    decodeAvidTaxonomy (encodeAvidTaxonomy t) = some t := by
  cases t with
  | mk rd lv tv =>
    simp [encodeAvidTaxonomy, decodeAvidTaxonomy,
      decodeList_encode (fun d => JsonValue.str (riskDomainToString d))
        decodeRiskDomain decodeRiskDomain_encode,
      decodeList_encode (fun l => JsonValue.str (lifecycleToString l))
        decodeLifecycle decodeLifecycle_encode]

theorem severity_round (s : SeverityEnum) :
    severityOfString (severityToString s) = some s := by
  cases s <;> rfl

theorem taxonomySource_round (s : TaxonomySource) :
    taxonomySourceOfString (taxonomySourceToString s) = some s := by
  cases s <;> rfl

theorem decodeTaxonomySource_encode (s : TaxonomySource) :
    decodeTaxonomySource (JsonValue.str (taxonomySourceToString s)) = some s := by
  simp [decodeTaxonomySource, taxonomySource_round]

theorem decodeCvss_encode (c : Option CvssScores) :
    decodeCvss (encodeCvss c) = some c := by
  cases c with
  | none => rfl
  | some s =>
    cases s with
    | mk sev => simp [encodeCvss, decodeCvss, severity_round]

theorem decodeImpact_encode (i : Impact) :
    decodeImpact (encodeImpact i) = some i := by
  cases i with
  | mk a c ss =>
    simp [encodeImpact, decodeImpact, decodeAvidTaxonomy_encode, decodeCvss_encode,
      decodeList_encode (fun s => JsonValue.str (taxonomySourceToString s))
        decodeTaxonomySource decodeTaxonomySource_encode]

set_option maxHeartbeats 1600000 in
/-- Claim C8: serialization round-trips — parsing the structured
serialization of any Report yields exactly that Report, field for
field. -/
theorem claim_c8_serialization_roundtrip (r : Report) :
    decodeReport (encodeReport r) = some r := by
  cases r with
  | mk dt md af pt ms rs d im cr rd =>
    simp [encodeReport, decodeReport, decodeOptString_encode,
      decodeAffects_encode, decodeProblemtype_encode,
      decodeList_encode encodeMetric decodeMetric decodeMetric_encode,
      decodeList_encode encodeReference decodeReference decodeReference_encode,
      decodeLangValue_encode, decodeImpact_encode]

/-! ## Lemmas and claims: publish workflow version check -/

theorem tagVersion_v_append (V : String) : tagVersion ("v" ++ V) = V := by
  cases V with
  | mk l =>
    unfold tagVersion
    rw [String.data_append]
    show String.mk (stripV ('v' :: l)) = String.mk l
    simp [stripV]

theorem tagVersion_of_ok (V : String) (h : versionStringOk V = true) :
    tagVersion V = V := by
  cases V with
  | mk l =>
    cases l with
    | nil => simp [versionStringOk] at h
    | cons c rest =>
      unfold versionStringOk at h
      have hd : c.isDigit = true := h
      have hc : ¬ c = 'v' := by
        intro e
        rw [e] at hd
        exact absurd hd (by decide)
      unfold tagVersion
      show String.mk (stripV (c :: rest)) = String.mk (c :: rest)
      simp [stripV, hc]

theorem versionMismatchOutput_false_iff (p t : String) :
    versionMismatchOutput p t = false ↔ p = t := by
  unfold versionMismatchOutput
  simp [bne]

/-- Claim C10: the version consistency check is insensitive to a single
leading `v` on the release tag — for every version string `V` (which, as
a package version, begins with a digit), the tags `vV` and `V` extract
the same tag version, namely `V` itself — and the `version_mismatch`
output is false exactly when the extracted tag version equals the
pyproject version character for character. -/
theorem claim_c10_tag_v_insensitive (V P : String)
    (h : versionStringOk V = true) :
    tagVersion ("v" ++ V) = tagVersion V ∧
    tagVersion ("v" ++ V) = V ∧
    (versionMismatchOutput P (tagVersion ("v" ++ V)) = false ↔ P = V) := by
  refine ⟨?_, tagVersion_v_append V, ?_⟩
  · rw [tagVersion_v_append V, tagVersion_of_ok V h]
  · rw [tagVersion_v_append V]
    exact versionMismatchOutput_false_iff P V

/-- Claim C10 witness: the check at the concrete version 0.2.1, matching
the tags tested by the version-logic test script. -/
theorem claim_c10_witness :
    versionStringOk "0.2.1" = true ∧
    (tagVersion ("v" ++ "0.2.1") = tagVersion "0.2.1" ∧
     tagVersion ("v" ++ "0.2.1") = "0.2.1" ∧
     (versionMismatchOutput "0.2.1" (tagVersion ("v" ++ "0.2.1")) = false ↔
       ("0.2.1" : String) = "0.2.1")) :=
  ⟨by decide, claim_c10_tag_v_insensitive "0.2.1" "0.2.1" (by decide)⟩

/-- The step names executed by the publish job when the versions
mismatch. -/
def MISMATCH_RUN_STEPS : List String :=
  ["Checkout repository", "Set up Python", "Install Poetry",
   "Cache Poetry dependencies", "Install dependencies",
   "Check version consistency", "Create version update PR",
   "Stop workflow if version mismatch"]

/-- Claim C9: on a release whose tag version (after stripping a leading
`v`) differs from the pyproject version, the publish job runs exactly up
to the `Stop workflow if version mismatch` step — creating the version
update PR on the way — and fails there, so the test, build and publish
steps are never reached in that run. -/
theorem claim_c9_publish_halts_on_mismatch (pyver tag : String)
    (h : pyver ≠ tagVersion tag) :
    runSteps publishJob (initEnv pyver tag) = (MISMATCH_RUN_STEPS, false) ∧
    "Run tests" ∉ (runSteps publishJob (initEnv pyver tag)).1 ∧
    "Build package" ∉ (runSteps publishJob (initEnv pyver tag)).1 ∧
    "Publish to PyPI" ∉ (runSteps publishJob (initEnv pyver tag)).1 := by
  have hb : (pyver != tagVersion tag) = true := by
    simp [bne_iff_ne]
    exact h
  have heq : runSteps publishJob (initEnv pyver tag) = (MISMATCH_RUN_STEPS, false) := by
    simp [publishJob, runSteps, okStep, versionCheckStep, createPrStep, stopStep,
      initEnv, versionMismatchOutput, hb, MISMATCH_RUN_STEPS]
  refine ⟨heq, ?_, ?_, ?_⟩ <;> rw [heq] <;> decide

/-- Claim C9 witness: a concrete mismatching release run (pyproject
0.2.1, release tag v0.3.0) stops at the mismatch step without reaching
the publish step. -/
theorem claim_c9_witness :
    ("0.2.1" : String) ≠ tagVersion "v0.3.0" ∧
    (runSteps publishJob (initEnv "0.2.1" "v0.3.0") = (MISMATCH_RUN_STEPS, false) ∧
     "Run tests" ∉ (runSteps publishJob (initEnv "0.2.1" "v0.3.0")).1 ∧
     "Build package" ∉ (runSteps publishJob (initEnv "0.2.1" "v0.3.0")).1 ∧
     "Publish to PyPI" ∉ (runSteps publishJob (initEnv "0.2.1" "v0.3.0")).1) :=
  ⟨by decide, claim_c9_publish_halts_on_mismatch "0.2.1" "v0.3.0" (by decide)⟩

end Avid
